import Mathlib

/-!
Shallow embedding of the tenant-scoped authorization and session-control
subsystem of the digitalmartpos backend (src/services/authService.js,
src/middleware/rbac.js, src/middleware/auth.js, src/middleware/errorHandler.js,
src/models/AuditLog.js, src/utils/jwt.js), together with theorems settling the
specification claims about it.

Conventions of the embedding:
* timestamps are seconds as `Nat`;
* mongoose documents are Lean structures, collections are `List`s, `findOne`
  is `List.find?` (first match), a save of a fetched document replaces every
  stored document with the same primary key;
* JS falsy string fields (absent or empty) are modelled as `none : Option String`
  -- the code under study only ever tests them for truthiness, so the two are
  observationally identical;
* bcrypt is a black box: hashing is injective tagging and compare checks it;
* a JWT is either a payload well-signed with the relevant secret (jwt.sign is
  deterministic, so two tokens with equal payload, iat and exp are the same
  string) or a forged/garbage string.
-/

deriving instance DecidableEq for Except

namespace DMPos

inductive Role
  | super_admin
  | shop_admin
  | staff
deriving DecidableEq, Repr

/-- The string stored in the `role` field of a user document. -/
def Role.str : Role → String
  | .super_admin => "super_admin"
  | .shop_admin => "shop_admin"
  | .staff => "staff"

inductive UserStatus
  | active
  | inactive
  | suspended
deriving DecidableEq, Repr

inductive TenantStatus
  | active
  | suspended
  | pending
  | cancelled
deriving DecidableEq, Repr

/-- config.jwt.accessExpiry default '15m', in seconds. -/
def accessExpirySecs : Nat := 900

/-- config.jwt.refreshExpiry default '7d', in seconds; also the value of the
`setDate(getDate() + 7)` expiry put on stored refresh-token records. -/
def refreshExpirySecs : Nat := 604800

/-- A refresh-token string as produced by `jwt.sign` over payload
`(userId, type := 'refresh')` with the refresh secret: `signed` carries the
payload fields that distinguish one such string from another (userId, iat,
exp); `forged` stands for any string that does not verify under the refresh
secret. -/
inductive RefreshTok
  | signed (userId : String) (iat : Nat) (exp : Nat)
  | forged (raw : String)
deriving DecidableEq, Repr

/-- An access-token string as produced by `jwt.sign` over payload
`(userId, tenantId, email, role)` with the access secret. -/
inductive AccessTok
  | signed (userId tenantId email : String) (role : Role) (iat : Nat) (exp : Nat)
  | forged (raw : String)
deriving DecidableEq, Repr

/-- One element of `user.refreshTokens` (models/User.js). -/
structure RefreshTokenRecord where
  token : RefreshTok
  createdAt : Nat
  expiresAt : Nat
deriving DecidableEq, Repr

/-- A user document (models/User.js). -/
structure User where
  userId : String
  tenantId : String
  email : String
  passwordHash : String
  role : Role
  status : UserStatus
  firstName : Option String
  lastName : Option String
  refreshTokens : List RefreshTokenRecord
  lastLogin : Option Nat
deriving DecidableEq, Repr

/-- A tenant document (models/Tenant.js). -/
structure Tenant where
  tenantId : String
  name : String
  status : TenantStatus
  plan : String
  dbName : String
deriving DecidableEq, Repr

/-- `String.prototype.toLowerCase`, modelled per character (structurally
recursive, unlike core `String.toLower`, so it computes in the kernel). -/
def jsToLower (s : String) : String := String.mk (s.data.map Char.toLower)

/-- `String.prototype.toUpperCase`, modelled per character. -/
def jsToUpper (s : String) : String := String.mk (s.data.map Char.toUpper)

def trimCh (l : List Char) : List Char :=
  ((l.dropWhile (fun c => decide (c = ' '))).reverse.dropWhile
    (fun c => decide (c = ' '))).reverse

/-- `String.prototype.trim` restricted to spaces (the only whitespace the
modelled strings contain). -/
def jsTrim (s : String) : String := String.mk (trimCh s.data)

def startsWithCh : List Char → List Char → Bool
  | _, [] => true
  | [], _ :: _ => false
  | a :: l, b :: m => if a = b then startsWithCh l m else false

def containsCh : List Char → List Char → Bool
  | [], sub => sub.isEmpty
  | a :: t, sub => if startsWithCh (a :: t) sub then true else containsCh t sub

/-- Black-box model of bcrypt hashing (pre-save hook of models/User.js). -/
def bcryptHash (password : String) : String := "bcrypt$" ++ password

/-- `userSchema.methods.comparePassword`. -/
def comparePassword (u : User) (candidate : String) : Bool :=
  bcryptHash candidate == u.passwordHash

/-- The closed `action` enum of auditLogSchema (models/AuditLog.js lines 28-72),
verbatim. -/
def auditActionEnum : List String :=
  ["LOGIN", "LOGOUT", "LOGIN_FAILED", "PASSWORD_CHANGE", "TOKEN_REFRESH",
   "TOKEN_REVOKED",
   "TENANT_CREATE", "TENANT_UPDATE", "TENANT_SUSPEND", "TENANT_DELETE",
   "USER_CREATE", "USER_UPDATE", "USER_DELETE", "USER_SUSPEND", "USER_ACTIVATE",
   "STAFF_CREATE", "STAFF_UPDATE", "STAFF_DELETE", "STAFF_SUSPEND",
   "PRODUCT_CREATE", "PRODUCT_UPDATE", "PRODUCT_DELETE", "PRODUCT_STOCK_UPDATE",
   "SALE_CREATE", "SALE_UPDATE", "SALE_CANCEL", "SALE_REFUND",
   "SETTINGS_UPDATE", "EXPORT_DATA", "IMPORT_DATA"]

/-- The `userRole` enum of auditLogSchema. -/
def auditUserRoleEnum : List String := ["super_admin", "shop_admin", "staff"]

/-- The `status` enum of auditLogSchema. -/
def auditStatusEnum : List String := ["success", "failure", "warning"]

/-- The `resource.type` enum of auditLogSchema. -/
def auditResourceTypeEnum : List String :=
  ["tenant", "user", "staff", "product", "sale", "settings", "system"]

/-- The schema-relevant fields of an audit-log document. `userName` holds the
empty string for a null value (never validated by the schema). -/
structure AuditEntry where
  userId : String
  tenantId : String
  userName : String
  userRole : Option String
  action : String
  resourceType : Option String
  status : String
  errorMessage : Option String
deriving DecidableEq, Repr

/-- Mongoose enum validation of an audit-log document: a present value of an
enum-constrained path must belong to the enum (absent optional values are not
validated). -/
def auditValidate (e : AuditEntry) : Bool :=
  auditActionEnum.contains e.action
    && auditStatusEnum.contains e.status
    && (match e.userRole with
        | none => true
        | some r => auditUserRoleEnum.contains r)
    && (match e.resourceType with
        | none => true
        | some t => auditResourceTypeEnum.contains t)

/-- `AuditLog.log` (models/AuditLog.js lines 122-135): best effort; a document
that fails schema validation makes `save` throw, the catch swallows the error
and nothing is persisted. -/
def auditLog (store : List AuditEntry) (e : AuditEntry) : List AuditEntry :=
  if auditValidate e then store ++ [e] else store

/-- The observable fields of an `ApiError` (middleware/errorHandler.js). -/
structure ApiError where
  statusCode : Nat
  message : String
  code : String
deriving DecidableEq, Repr

/-- The persistent state touched by the auth service: the users and tenants
collections and the audit log. -/
structure AuthState where
  users : List User
  tenants : List Tenant
  audit : List AuditEntry
deriving DecidableEq, Repr

/-- `User.findOne (email := email.toLowerCase())`; stored emails are lowercase
(schema `lowercase: true`). -/
def findUserByEmail (users : List User) (email : String) : Option User :=
  users.find? (fun u => decide (u.email = jsToLower email))

/-- `User.findOne (userId)`. -/
def findUserById (users : List User) (userId : String) : Option User :=
  users.find? (fun u => decide (u.userId = userId))

/-- `Tenant.findOne (tenantId)`. -/
def findTenant (tenants : List Tenant) (tenantId : String) : Option Tenant :=
  tenants.find? (fun t => decide (t.tenantId = tenantId))

/-- `user.save()` on a previously fetched document: replace the stored
document(s) with the same `userId`. -/
def saveUser (users : List User) (u : User) : List User :=
  users.map (fun v => if v.userId = u.userId then u else v)

structure RefreshClaims where
  userId : String
deriving DecidableEq, Repr

inductive JwtError
  | jsonWebTokenError
  | tokenExpiredError
deriving DecidableEq, Repr

/-- `verifyRefreshToken` (utils/jwt.js): jwt.verify with the refresh secret;
jsonwebtoken reports expiry when the clock timestamp reaches `exp`. -/
def verifyRefreshToken (now : Nat) : RefreshTok → Except JwtError RefreshClaims
  | .forged _ => .error .jsonWebTokenError
  | .signed uid _ exp =>
      if exp ≤ now then .error .tokenExpiredError else .ok ⟨uid⟩

structure AccessClaims where
  userId : String
  tenantId : String
  email : String
  role : Role
deriving DecidableEq, Repr

/-- `jwt.verify(token, config.jwt.accessSecret)` (middleware/auth.js). -/
def verifyAccessToken (now : Nat) : AccessTok → Except JwtError AccessClaims
  | .forged _ => .error .jsonWebTokenError
  | .signed uid tid em r _ exp =>
      if exp ≤ now then .error .tokenExpiredError else .ok ⟨uid, tid, em, r⟩

structure TokenPair where
  accessToken : AccessTok
  refreshToken : RefreshTok
deriving DecidableEq, Repr

/-- `generateTokenPair` (utils/jwt.js). -/
def generateTokenPair (u : User) (now : Nat) : TokenPair :=
  { accessToken := .signed u.userId u.tenantId u.email u.role now (now + accessExpirySecs)
    refreshToken := .signed u.userId now (now + refreshExpirySecs) }

/-- The display name put on audit entries by the auth service. -/
def profileName (u : User) : String :=
  jsTrim ((u.firstName.getD "") ++ " " ++ (u.lastName.getD ""))

/-- The error thrown for both unknown-email and wrong-password login failures
(authService.js lines 393 and 416): one shared status, message and code. -/
def invalidCredentials : ApiError :=
  ⟨401, "Invalid email or password", "INVALID_CREDENTIALS"⟩

def accountInactiveErr : ApiError := ⟨403, "Account is not active", "ACCOUNT_INACTIVE"⟩

def tenantInactiveErr : ApiError := ⟨403, "Tenant account is not active", "TENANT_INACTIVE"⟩

def tokenInvalidErr : ApiError := ⟨401, "Invalid refresh token", "TOKEN_INVALID"⟩

def refreshExpiredErr : ApiError := ⟨401, "Refresh token expired", "TOKEN_EXPIRED"⟩

/-- The tenant-status gate inside login: `!tenant || tenant.status !== 'active'`. -/
def tenantOk (tenants : List Tenant) (tenantId : String) : Bool :=
  match findTenant tenants tenantId with
  | none => false
  | some t => decide (t.status = .active)

/-- `user.refreshTokens.slice(-5)`: the last five records. -/
def takeLast5 (l : List RefreshTokenRecord) : List RefreshTokenRecord :=
  l.drop (l.length - 5)

/-- The LOGIN_FAILED entry written when no user matches the email; its
`userRole` is the literal string 'unknown'. -/
def loginFailedUnknownEntry (email : String) (tenantIdArg : Option String) : AuditEntry :=
  { userId := "unknown", tenantId := tenantIdArg.getD "global", userName := email
    userRole := some "unknown", action := "LOGIN_FAILED", resourceType := none
    status := "failure", errorMessage := some "User not found" }

/-- The LOGIN_FAILED entry written for a wrong password. -/
def loginFailedPasswordEntry (u : User) : AuditEntry :=
  { userId := u.userId, tenantId := u.tenantId, userName := profileName u
    userRole := some u.role.str, action := "LOGIN_FAILED", resourceType := none
    status := "failure", errorMessage := some "Invalid password" }

/-- The LOGIN success entry. -/
def loginSuccessEntry (u : User) : AuditEntry :=
  { userId := u.userId, tenantId := u.tenantId, userName := profileName u
    userRole := some u.role.str, action := "LOGIN", resourceType := none
    status := "success", errorMessage := none }

/-- The record pushed onto `user.refreshTokens` at login and rotation. -/
def newRefreshRecord (u : User) (now : Nat) : RefreshTokenRecord :=
  { token := (generateTokenPair u now).refreshToken
    createdAt := now
    expiresAt := now + refreshExpirySecs }

/-- The data returned to a successfully logged-in caller. -/
structure LoginOk where
  userId : String
  tenantId : String
  email : String
  role : Role
  tokens : TokenPair
deriving DecidableEq, Repr

/-- `AuthService.login` (authService.js lines 376-468), step for step:
find the user by lowercased email (unknown email: best-effort LOGIN_FAILED
audit, INVALID_CREDENTIALS); reject a non-active account (ACCOUNT_INACTIVE,
no audit); compare the password (wrong: LOGIN_FAILED audit,
INVALID_CREDENTIALS with the identical message); for non-super-admins require
an existing active tenant (TENANT_INACTIVE); then issue a token pair, push the
refresh record keeping only the last five, set lastLogin, save, and audit
LOGIN/success. -/
def login (st : AuthState) (now : Nat) (email password : String)
    (tenantIdArg : Option String) : AuthState × Except ApiError LoginOk :=
  match findUserByEmail st.users email with
  | none =>
      ({ st with audit := auditLog st.audit (loginFailedUnknownEntry email tenantIdArg) },
       .error invalidCredentials)
  | some user =>
      if user.status ≠ .active then
        (st, .error accountInactiveErr)
      else if comparePassword user password = false then
        ({ st with audit := auditLog st.audit (loginFailedPasswordEntry user) },
         .error invalidCredentials)
      else if user.role ≠ .super_admin ∧ tenantOk st.tenants user.tenantId = false then
        (st, .error tenantInactiveErr)
      else
        let tokens := generateTokenPair user now
        let pushed := user.refreshTokens ++ [newRefreshRecord user now]
        let kept := if pushed.length > 5 then takeLast5 pushed else pushed
        let user' := { user with refreshTokens := kept, lastLogin := some now }
        ({ users := saveUser st.users user', tenants := st.tenants,
           audit := auditLog st.audit (loginSuccessEntry user) },
         .ok { userId := user.userId, tenantId := user.tenantId,
               email := user.email, role := user.role, tokens := tokens })

/-- The TOKEN_REVOKED entry written when a presented refresh token is absent
from the user's stored list. -/
def tokenRevokedEntry (u : User) : AuditEntry :=
  { userId := u.userId, tenantId := u.tenantId, userName := profileName u
    userRole := some u.role.str, action := "TOKEN_REVOKED", resourceType := none
    status := "failure", errorMessage := none }

/-- The TOKEN_REFRESH success entry. -/
def tokenRefreshEntry (u : User) : AuditEntry :=
  { userId := u.userId, tenantId := u.tenantId, userName := profileName u
    userRole := some u.role.str, action := "TOKEN_REFRESH", resourceType := none
    status := "success", errorMessage := none }

/-- The user document after a successful rotation consumed `rt`: every record
holding the consumed token is dropped and the freshly issued record appended. -/
def rotatedUser (user : User) (now : Nat) (rt : RefreshTok) : User :=
  { user with
    refreshTokens :=
      (user.refreshTokens.filter (fun r => !(decide (r.token = rt))))
        ++ [newRefreshRecord user now] }

/-- The tail of a successful rotation: issue a fresh pair, drop every record
holding the consumed token, append the new record, save, audit TOKEN_REFRESH. -/
def rotateFinish (st : AuthState) (now : Nat) (user : User) (rt : RefreshTok) :
    AuthState × Except ApiError TokenPair :=
  ({ users := saveUser st.users (rotatedUser user now rt), tenants := st.tenants,
     audit := auditLog st.audit (tokenRefreshEntry user) },
   .ok (generateTokenPair user now))

/-- `AuthService.refreshToken` (authService.js lines 497-574): verify the
presented token's signature and embedded expiry (the catch maps
JsonWebTokenError to TOKEN_INVALID and TokenExpiredError to TOKEN_EXPIRED),
load the user, treat a token absent from the stored list as revoked
(TOKEN_REVOKED audit, TOKEN_INVALID), belt-and-suspenders check of the stored
record's own expiresAt, then rotate. A `find?` miss after a successful `any`
skips the stored-expiry check exactly as `if (tokenData && ...)` does. -/
def refreshTokenOp (st : AuthState) (now : Nat) (rto : Option RefreshTok) :
    AuthState × Except ApiError TokenPair :=
  match rto with
  | none => (st, .error ⟨400, "Refresh token required", "REFRESH_TOKEN_REQUIRED"⟩)
  | some rt =>
      match verifyRefreshToken now rt with
      | .error .jsonWebTokenError => (st, .error tokenInvalidErr)
      | .error .tokenExpiredError => (st, .error refreshExpiredErr)
      | .ok claims =>
          match findUserById st.users claims.userId with
          | none => (st, .error ⟨401, "User not found", "USER_NOT_FOUND"⟩)
          | some user =>
              if user.refreshTokens.any (fun r => decide (r.token = rt)) then
                match user.refreshTokens.find? (fun r => decide (r.token = rt)) with
                | some td =>
                    if td.expiresAt < now then (st, .error refreshExpiredErr)
                    else rotateFinish st now user rt
                | none => rotateFinish st now user rt
              else
                ({ st with audit := auditLog st.audit (tokenRevokedEntry user) },
                 .error tokenInvalidErr)

/-- `Tenant.generateTenantId`: the first three characters of the name,
uppercased, plus the clock value. -/
def generateTenantId (name : String) (now : Nat) : String :=
  "tenant_" ++ jsToUpper (String.mk (name.data.take 3)) ++ "_" ++ toString now

/-- `User.generateUserId`, modelled deterministically from the clock (the
source suffixes a random string; only freshness matters here). -/
def generateUserId (now : Nat) : String :=
  "user_" ++ toString now

/-- The observable shape of a mongo duplicate-key (E11000) failure after the
global error handler maps it: status 409, code DUPLICATE_ENTRY. The service
itself has no try/catch, so the raw error propagates and the operation is
reported as failed. -/
def duplicateKeyErr (field : String) : ApiError :=
  ⟨409, "Duplicate value for field: " ++ field, "DUPLICATE_ENTRY"⟩

/-- The FORBIDDEN error guarding tenant creation. -/
def createTenantForbiddenErr : ApiError :=
  ⟨403, "Only super admin can create tenants", "FORBIDDEN"⟩

/-- The tenant document built by createTenantAndShopAdmin. -/
def mkTenant (tenantName plan : String) (now : Nat) : Tenant :=
  { tenantId := generateTenantId tenantName now
    name := tenantName
    status := .active
    plan := plan
    dbName := "tenant_" ++ generateTenantId tenantName now }

/-- The shop-admin user document built by createTenantAndShopAdmin (the
pre-save hook hashes the password). -/
def mkShopAdmin (tenantName shopAdminEmail shopAdminPassword shopAdminName : String)
    (now : Nat) : User :=
  { userId := generateUserId now
    tenantId := generateTenantId tenantName now
    email := jsToLower shopAdminEmail
    passwordHash := bcryptHash shopAdminPassword
    role := .shop_admin
    status := .active
    firstName := some shopAdminName
    lastName := none
    refreshTokens := []
    lastLogin := none }

/-- The TENANT_CREATE success entry. -/
def tenantCreateEntry (creatorId : String) (creator : User) : AuditEntry :=
  { userId := creatorId, tenantId := "global", userName := profileName creator
    userRole := some "super_admin", action := "TENANT_CREATE"
    resourceType := some "tenant", status := "success", errorMessage := none }

/-- The USER_CREATE success entry for the new shop admin. -/
def shopAdminCreateEntry (tenantName shopAdminName : String) (now : Nat) : AuditEntry :=
  { userId := generateUserId now, tenantId := generateTenantId tenantName now
    userName := shopAdminName, userRole := some "shop_admin"
    action := "USER_CREATE", resourceType := some "user"
    status := "success", errorMessage := none }

/-- What createTenantAndShopAdmin returns on success. -/
structure CreateTenantResult where
  tenantId : String
  tenantName : String
  tenantStatus : TenantStatus
  plan : String
  adminUserId : String
  adminEmail : String
  adminRole : Role
deriving DecidableEq, Repr

/-- `AuthService.createTenantAndShopAdmin` (authService.js lines 625-703):
only a super_admin creator passes the guard; the tenant is saved first (the
unique index on tenantId can fail it), then the shop-admin user is saved (the
unique indexes on userId and on (email, tenantId) can fail it, leaving the
already-saved tenant behind but reporting the operation as failed), then the
two success audit entries are appended in order. -/
def createTenantAndShopAdmin (st : AuthState) (now : Nat) (creatorId : String)
    (tenantName shopAdminEmail shopAdminPassword shopAdminName plan : String) :
    AuthState × Except ApiError CreateTenantResult :=
  match findUserById st.users creatorId with
  | none => (st, .error createTenantForbiddenErr)
  | some creator =>
      if creator.role ≠ .super_admin then
        (st, .error createTenantForbiddenErr)
      else
        let tenant := mkTenant tenantName plan now
        if st.tenants.any (fun t => decide (t.tenantId = tenant.tenantId)) then
          (st, .error (duplicateKeyErr "tenantId"))
        else
          let st1 : AuthState := { st with tenants := st.tenants ++ [tenant] }
          let admin := mkShopAdmin tenantName shopAdminEmail shopAdminPassword shopAdminName now
          if st1.users.any (fun u => decide (u.userId = admin.userId)) then
            (st1, .error (duplicateKeyErr "userId"))
          else if st1.users.any
              (fun u => decide (u.email = admin.email ∧ u.tenantId = admin.tenantId)) then
            (st1, .error (duplicateKeyErr "email"))
          else
            ({ users := st1.users ++ [admin], tenants := st1.tenants,
               audit := auditLog
                 (auditLog st.audit (tenantCreateEntry creatorId creator))
                 (shopAdminCreateEntry tenantName shopAdminName now) },
             .ok { tenantId := tenant.tenantId, tenantName := tenant.name,
                   tenantStatus := tenant.status, plan := tenant.plan,
                   adminUserId := admin.userId, adminEmail := admin.email,
                   adminRole := admin.role })

/-- The staff-profile permission flags (models/Staff.js `permissions`). -/
structure StaffPerms where
  canManageProducts : Bool
  canManageSales : Bool
  canManageStaff : Bool
  canViewReports : Bool
  canApplyDiscount : Bool
  canRefund : Bool
deriving DecidableEq, Repr

/-- `req.user` as attached by middleware. `permissions` is `none` when the
object carries no `permissions` property, so `req.user.permissions?.flag`
is falsy. -/
structure Principal where
  userId : String
  tenantId : String
  email : String
  role : Role
  status : UserStatus
  permissions : Option StaffPerms
deriving DecidableEq, Repr

/-- The Authorization header: a value starting with 'Bearer ' carrying a
token, or any other string. -/
inductive AuthHeader
  | bearer (token : AccessTok)
  | other (raw : String)
deriving DecidableEq, Repr

/-- The request fields read by the middleware under study. `none` on the
tenant-id fields models an absent or falsy value (the code only ever tests
them for truthiness). -/
structure Request where
  authorization : Option AuthHeader
  method : String
  path : String
  paramsTenantId : Option String
  bodyTenantId : Option String
  tenantId : Option String
  user : Option Principal
  tenant : Option Tenant
deriving DecidableEq, Repr

/-- Outcome of one express middleware: pass control on with a possibly
updated request, or answer with a status, message and error code. -/
inductive MwResult
  | next (req : Request)
  | respond (status : Nat) (message : String) (code : String)
deriving DecidableEq, Repr

/-- `authenticate` (middleware/auth.js lines 247-322): a missing header or one
not starting with 'Bearer ' is AUTH_REQUIRED before any verification or
lookup; then jwt.verify (TOKEN_EXPIRED / TOKEN_INVALID), a fresh user load
(USER_NOT_FOUND), the status gate (ACCOUNT_INACTIVE), and finally the
principal is attached -- without any `permissions` property. -/
def authenticate (users : List User) (now : Nat) (req : Request) : MwResult :=
  match req.authorization with
  | none => .respond 401 "Authentication required" "AUTH_REQUIRED"
  | some (.other _) => .respond 401 "Authentication required" "AUTH_REQUIRED"
  | some (.bearer tok) =>
      match verifyAccessToken now tok with
      | .error .tokenExpiredError => .respond 401 "Access token expired" "TOKEN_EXPIRED"
      | .error .jsonWebTokenError => .respond 401 "Invalid access token" "TOKEN_INVALID"
      | .ok claims =>
          match findUserById users claims.userId with
          | none => .respond 401 "User not found" "USER_NOT_FOUND"
          | some user =>
              if user.status ≠ .active then
                .respond 403 "Account is not active" "ACCOUNT_INACTIVE"
              else
                .next { req with
                  user := some { userId := user.userId, tenantId := user.tenantId,
                                 email := user.email, role := user.role,
                                 status := user.status, permissions := none }
                  tenantId := some user.tenantId }

/-- `req.params.tenantId || req.body.tenantId || req.tenantId`. -/
def resolveRequestedTenant (req : Request) : Option String :=
  req.paramsTenantId.orElse (fun _ => req.bodyTenantId.orElse (fun _ => req.tenantId))

/-- The trailing own-tenant checks of requireTenantAccess: the principal's
tenant must exist and be active, and is then attached to the request. -/
def ownTenantCheck (tenants : List Tenant) (req : Request) (p : Principal) : MwResult :=
  match findTenant tenants p.tenantId with
  | none => .respond 404 "Tenant not found" "TENANT_NOT_FOUND"
  | some tenant =>
      if tenant.status ≠ .active then
        .respond 403 "Tenant account is not active" "TENANT_INACTIVE"
      else
        .next { req with tenant := some tenant }

/-- `requireTenantAccess` (middleware/rbac.js lines 65-130): super_admin
passes unconditionally; otherwise a truthy requested tenant id differing from
the principal's own is TENANT_FORBIDDEN, and the principal's own tenant must
exist and be active. -/
def requireTenantAccess (tenants : List Tenant) (req : Request) : MwResult :=
  match req.user with
  | none => .respond 401 "Authentication required" "AUTH_REQUIRED"
  | some p =>
      if p.role = .super_admin then .next req
      else
        match resolveRequestedTenant req with
        | some t =>
            if t ≠ p.tenantId then
              .respond 403 "Access denied to this tenant" "TENANT_FORBIDDEN"
            else ownTenantCheck tenants req p
        | none => ownTenantCheck tenants req p

/-- JS `String.prototype.includes`: substring containment. -/
def strIncludes (s sub : String) : Bool := containsCh s.data sub.data

/-- `req.user.permissions?.flag`: falsy when no permissions object is attached. -/
def permFlag (p : Principal) (f : StaffPerms → Bool) : Bool :=
  match p.permissions with
  | none => false
  | some perms => f perms

/-- `staffPermissions.canManageProducts` (rbac.js lines 154-163): denies a
missing principal or the staff role outright; the staff profile's
canManageProducts flag is never consulted. -/
def canManageProducts (req : Request) : MwResult :=
  match req.user with
  | none => .respond 403 "Permission denied: Cannot manage products" "NO_PRODUCT_PERMISSION"
  | some p =>
      if p.role = .staff then
        .respond 403 "Permission denied: Cannot manage products" "NO_PRODUCT_PERMISSION"
      else .next req

/-- `staffPermissions.canManageSales` (rbac.js lines 165-183): any POST to a
path containing '/sales' passes; a missing principal or staff role passes
only GET; the canManageSales flag is never consulted. -/
def canManageSales (req : Request) : MwResult :=
  if req.method = "POST" ∧ strIncludes req.path "/sales" = true then .next req
  else
    match req.user with
    | none =>
        if req.method = "GET" then .next req
        else .respond 403 "Permission denied: Cannot modify sales" "NO_SALES_PERMISSION"
    | some p =>
        if p.role = .staff then
          if req.method = "GET" then .next req
          else .respond 403 "Permission denied: Cannot modify sales" "NO_SALES_PERMISSION"
        else .next req

/-- `staffPermissions.canManageStaff` (rbac.js lines 185-194): denies a
missing principal or the staff role outright. -/
def canManageStaff (req : Request) : MwResult :=
  match req.user with
  | none => .respond 403 "Permission denied: Cannot manage staff" "NO_STAFF_PERMISSION"
  | some p =>
      if p.role = .staff then
        .respond 403 "Permission denied: Cannot manage staff" "NO_STAFF_PERMISSION"
      else .next req

/-- `staffPermissions.canViewReports` (rbac.js lines 196-205): staff pass only
with a truthy canViewReports flag. -/
def canViewReports (req : Request) : MwResult :=
  match req.user with
  | none => .respond 403 "Permission denied: Cannot view reports" "NO_REPORT_PERMISSION"
  | some p =>
      if p.role = .staff ∧ permFlag p (fun x => x.canViewReports) = false then
        .respond 403 "Permission denied: Cannot view reports" "NO_REPORT_PERMISSION"
      else .next req

/-- `staffPermissions.canApplyDiscount` (rbac.js lines 207-216). -/
def canApplyDiscount (req : Request) : MwResult :=
  match req.user with
  | none => .respond 403 "Permission denied: Cannot apply discounts" "NO_DISCOUNT_PERMISSION"
  | some p =>
      if p.role = .staff ∧ permFlag p (fun x => x.canApplyDiscount) = false then
        .respond 403 "Permission denied: Cannot apply discounts" "NO_DISCOUNT_PERMISSION"
      else .next req

/-- `staffPermissions.canRefund` (rbac.js lines 218-227). -/
def canRefund (req : Request) : MwResult :=
  match req.user with
  | none => .respond 403 "Permission denied: Cannot process refunds" "NO_REFUND_PERMISSION"
  | some p =>
      if p.role = .staff ∧ permFlag p (fun x => x.canRefund) = false then
        .respond 403 "Permission denied: Cannot process refunds" "NO_REFUND_PERMISSION"
      else .next req

/-- What the global error handler knows about the error it is reporting. -/
structure ErrInfo where
  message : String
  code : String
  statusCode : Nat
deriving DecidableEq, Repr

/-- The audit entry the global errorHandler (middleware/errorHandler.js)
submits for every error it handles: action 'SYSTEM_ERROR', resource type
'system', status failure, `req.user?.role || 'unknown'` as userRole. -/
def systemErrorEntry (req : Request) (err : ErrInfo) : AuditEntry :=
  { userId := (req.user.map (fun p => p.userId)).getD "unknown"
    tenantId := req.tenantId.getD ((req.user.map (fun p => p.tenantId)).getD "global")
    userName := (req.user.map (fun p => p.email)).getD ""
    userRole := some ((req.user.map (fun p => p.role.str)).getD "unknown")
    action := "SYSTEM_ERROR"
    resourceType := some "system"
    status := "failure"
    errorMessage := some err.message }

/-- The audit write performed by the global errorHandler, through
`AuditLog.log`'s best-effort save. -/
def errorHandlerAudit (store : List AuditEntry) (req : Request) (err : ErrInfo) :
    List AuditEntry :=
  auditLog store (systemErrorEntry req err)

/-! ## General lemmas about the embedding -/

theorem userRoleEnum_contains_str (r : Role) :
    auditUserRoleEnum.contains r.str = true := by
  cases r <;> rfl

theorem auditValidate_loginSuccessEntry (u : User) :
    auditValidate (loginSuccessEntry u) = true := by
  cases u with
  | mk uid tid em ph role st fn ln rts ll => cases role <;> rfl

theorem auditValidate_loginFailedPasswordEntry (u : User) :
    auditValidate (loginFailedPasswordEntry u) = true := by
  cases u with
  | mk uid tid em ph role st fn ln rts ll => cases role <;> rfl

theorem auditValidate_tokenRevokedEntry (u : User) :
    auditValidate (tokenRevokedEntry u) = true := by
  cases u with
  | mk uid tid em ph role st fn ln rts ll => cases role <;> rfl

theorem auditValidate_tokenRefreshEntry (u : User) :
    auditValidate (tokenRefreshEntry u) = true := by
  cases u with
  | mk uid tid em ph role st fn ln rts ll => cases role <;> rfl

theorem auditValidate_loginFailedUnknownEntry (email : String) (targ : Option String) :
    auditValidate (loginFailedUnknownEntry email targ) = false := rfl

theorem auditLog_valid {e : AuditEntry} (store : List AuditEntry)
    (h : auditValidate e = true) : auditLog store e = store ++ [e] := by
  simp [auditLog, h]

theorem auditLog_invalid {e : AuditEntry} (store : List AuditEntry)
    (h : auditValidate e = false) : auditLog store e = store := by
  simp [auditLog, h]

/-- A `find?` hit survives a save of a document carrying the same id. -/
theorem findUserById_saveUser (users : List User) (uid : String) (u u' : User)
    (h : findUserById users uid = some u) (hid : u'.userId = u.userId) :
    findUserById (saveUser users u') uid = some u' := by
  have hu : u.userId = uid := by
    have := List.find?_some h
    simpa using this
  unfold findUserById saveUser at *
  induction users with
  | nil => simp at h
  | cons v vs ih =>
      by_cases hv : v.userId = uid
      · simp only [List.find?_cons, List.map_cons]
        have : (if v.userId = u'.userId then u' else v) = u' := by
          rw [if_pos (by rw [hid, hu, hv])]
        rw [this]
        simp [hid, hu]
      · simp only [List.find?_cons] at h
        rw [decide_eq_false hv] at h
        simp only [List.map_cons, List.find?_cons]
        have : (if v.userId = u'.userId then u' else v) = v := by
          rw [if_neg (by rw [hid, hu]; exact hv)]
        rw [this, decide_eq_false hv]
        exact ih h

theorem mem_saveUser {users : List User} {u' v : User}
    (h : v ∈ saveUser users u') : v = u' ∨ v ∈ users := by
  unfold saveUser at h
  rw [List.mem_map] at h
  obtain ⟨w, hw, he⟩ := h
  by_cases hid : w.userId = u'.userId
  · left; rw [← he, if_pos hid]
  · right; rw [← he, if_neg hid]; exact hw

/-- Nothing that satisfies `p` survives filtering on the negation of `p`. -/
theorem any_filter_not_eq_false {α : Type} (l : List α) (p : α → Bool) :
    (l.filter (fun x => !(p x))).any p = false := by
  induction l with
  | nil => rfl
  | cons a l ih =>
      by_cases ha : p a = true
      · simp [List.filter_cons, ha, ih]
      · simp only [Bool.not_eq_true] at ha
        simp [List.filter_cons, ha, ih]

/-- Filtering out an element that is present strictly shrinks the list. -/
theorem length_filter_not_lt {α : Type} (l : List α) (p : α → Bool)
    (h : l.any p = true) :
    (l.filter (fun x => !(p x))).length < l.length := by
  induction l with
  | nil => simp at h
  | cons a l ih =>
      by_cases ha : p a = true
      · calc (List.filter (fun x => !(p x)) (a :: l)).length
            = (List.filter (fun x => !(p x)) l).length := by simp [List.filter_cons, ha]
          _ ≤ l.length := List.length_filter_le _ _
          _ < (a :: l).length := by simp
      · simp only [Bool.not_eq_true] at ha
        have hl : l.any p = true := by simpa [ha] using h
        have := ih hl
        simp [List.filter_cons, ha]
        omega

theorem takeLast5_length_le (l : List RefreshTokenRecord) :
    (takeLast5 l).length ≤ 5 := by
  unfold takeLast5
  rw [List.length_drop]
  omega

/-! ## C6: the SYSTEM_ERROR audit contract -/

/-- C6: the claim &mdash; that every error handled by the global error handler
yields a successfully persisted SYSTEM_ERROR audit entry and that
SYSTEM_ERROR belongs to the audit schema's closed action enumeration &mdash;
fails on the code: SYSTEM_ERROR is absent from the schema's action enum, so
the entry the errorHandler submits always fails validation and `AuditLog.log`
silently drops it. This theorem evaluates the code at every failing input:
no call to the errorHandler's audit write ever extends the audit store. -/
theorem system_error_audit_never_persisted :
    "SYSTEM_ERROR" ∉ auditActionEnum ∧
    ∀ (store : List AuditEntry) (req : Request) (err : ErrInfo),
      errorHandlerAudit store req err = store := by
  refine ⟨by decide, ?_⟩
  intro store req err
  have hval : auditValidate (systemErrorEntry req err) = false := by
    have hc : auditActionEnum.contains "SYSTEM_ERROR" = false := by decide
    simp only [auditValidate, systemErrorEntry]
    rw [hc]
    simp
  simp [errorHandlerAudit, auditLog_invalid store hval]

/-! ## Concrete fixtures used by witnesses and counterexamples -/

/-- An active shop_admin user with password "pw". -/
def exUser : User :=
  { userId := "u1", tenantId := "t1", email := "alice@x.y"
    passwordHash := bcryptHash "pw", role := .shop_admin, status := .active
    firstName := some "A", lastName := some "L", refreshTokens := [], lastLogin := none }

/-- A suspended user with password "pw2". -/
def exSuspUser : User :=
  { userId := "u2", tenantId := "t1", email := "susp@x.y"
    passwordHash := bcryptHash "pw2", role := .shop_admin, status := .suspended
    firstName := some "S", lastName := none, refreshTokens := [], lastLogin := none }

/-- An active super_admin with password "root". -/
def exSuper : User :=
  { userId := "u0", tenantId := "global", email := "root@x.y"
    passwordHash := bcryptHash "root", role := .super_admin, status := .active
    firstName := some "R", lastName := none, refreshTokens := [], lastLogin := none }

/-- A staff user of tenant t1 with password "pw3". -/
def exStaffUser : User :=
  { userId := "u3", tenantId := "t1", email := "staff@x.y"
    passwordHash := bcryptHash "pw3", role := .staff, status := .active
    firstName := some "W", lastName := none, refreshTokens := [], lastLogin := none }

/-- A shop_admin of the pending tenant t2, password "pw4". -/
def exPendingAdmin : User :=
  { userId := "u4", tenantId := "t2", email := "pend@x.y"
    passwordHash := bcryptHash "pw4", role := .shop_admin, status := .active
    firstName := some "P", lastName := none, refreshTokens := [], lastLogin := none }

def exTenant : Tenant :=
  { tenantId := "t1", name := "Shop One", status := .active, plan := "free", dbName := "d1" }

def exPendingTenant : Tenant :=
  { tenantId := "t2", name := "Shop Two", status := .pending, plan := "free", dbName := "d2" }

def exSt : AuthState :=
  { users := [exSuper, exUser, exSuspUser, exStaffUser, exPendingAdmin]
    tenants := [exTenant, exPendingTenant]
    audit := [] }

/-! ## C8: credential-failure indistinguishability -/

/-- C8: an unknown email and a wrong password produce literally the same
`invalidCredentials` error value &mdash; same HTTP status 401, same code
INVALID_CREDENTIALS, identical message text &mdash; so the two causes cannot
be told apart from the response. -/
theorem invalid_credentials_indistinguishable :
    ∀ (st : AuthState) (now : Nat) (email password : String) (targ : Option String),
      (findUserByEmail st.users email = none →
        (login st now email password targ).2 = .error invalidCredentials) ∧
      (∀ user, findUserByEmail st.users email = some user →
        user.status = .active →
        comparePassword user password = false →
        (login st now email password targ).2 = .error invalidCredentials) := by
  intro st now email pw targ
  constructor
  · intro h
    simp [login, h]
  · intro user h hact hpw
    simp [login, h, hact, hpw]

theorem invalid_credentials_indistinguishable_witness :
    (login exSt 1 "ghost@x.y" "pw" none).2 = .error invalidCredentials ∧
    (login exSt 1 "alice@x.y" "wrong" none).2 = .error invalidCredentials :=
  ⟨(invalid_credentials_indistinguishable exSt 1 "ghost@x.y" "pw" none).1 (by decide),
   (invalid_credentials_indistinguishable exSt 1 "alice@x.y" "wrong" none).2 exUser
     (by decide) (by decide) (by decide)⟩

/-! ## C10: status gate precedes the password check -/

/-- C10 (implicit): login checks the account status before comparing the
password, so a non-active account gets ACCOUNT_INACTIVE for every supplied
password &mdash; the outcome is independent of the password input &mdash;
while an unknown email gets INVALID_CREDENTIALS, and the two responses
differ, revealing that an account with that email exists. -/
theorem account_inactive_independent_of_password :
    (∀ (st : AuthState) (now : Nat) (email password : String) (targ : Option String)
        (user : User),
      findUserByEmail st.users email = some user →
      user.status ≠ .active →
      login st now email password targ = (st, .error accountInactiveErr)) ∧
    (∀ (st : AuthState) (now : Nat) (email password : String) (targ : Option String),
      findUserByEmail st.users email = none →
      (login st now email password targ).2 = .error invalidCredentials) ∧
    accountInactiveErr ≠ invalidCredentials := by
  refine ⟨?_, ?_, by decide⟩
  · intro st now email pw targ user h hst
    simp [login, h, hst]
  · intro st now email pw targ h
    simp [login, h]

theorem account_inactive_independent_of_password_witness :
    login exSt 1 "susp@x.y" "pw2" none = (exSt, .error accountInactiveErr) ∧
    login exSt 1 "susp@x.y" "totally-wrong" none = (exSt, .error accountInactiveErr) ∧
    (login exSt 1 "ghost@x.y" "pw2" none).2 = .error invalidCredentials :=
  ⟨(account_inactive_independent_of_password).1 exSt 1 "susp@x.y" "pw2" none exSuspUser
     (by decide) (by decide),
   (account_inactive_independent_of_password).1 exSt 1 "susp@x.y" "totally-wrong" none
     exSuspUser (by decide) (by decide),
   (account_inactive_independent_of_password).2.1 exSt 1 "ghost@x.y" "pw2" none (by decide)⟩

/-! ## C5: suspension takes effect at authentication -/

/-- C5: a cryptographically valid, unexpired access token for a user whose
freshly loaded status is not active is rejected with ACCOUNT_INACTIVE (a
respond outcome, so no principal is attached), and a missing or non-Bearer
Authorization header is AUTH_REQUIRED &mdash; for every user store and clock,
i.e. before any token verification or database lookup. -/
theorem authenticate_suspension_and_auth_required :
    (∀ (users : List User) (now : Nat) (req : Request) (uid tid em : String)
        (rl : Role) (iat tokexp : Nat) (u : User),
      req.authorization = some (.bearer (.signed uid tid em rl iat tokexp)) →
      now < tokexp →
      findUserById users uid = some u →
      u.status ≠ .active →
      authenticate users now req = .respond 403 "Account is not active" "ACCOUNT_INACTIVE") ∧
    (∀ (users : List User) (now : Nat) (req : Request),
      (req.authorization = none ∨ ∃ raw, req.authorization = some (.other raw)) →
      authenticate users now req = .respond 401 "Authentication required" "AUTH_REQUIRED") := by
  constructor
  · intro users now req uid tid em rl iat tokexp u hauth hfresh hfind hst
    have hnle : ¬ tokexp ≤ now := by omega
    simp [authenticate, hauth, verifyAccessToken, hnle, hfind, hst]
  · intro users now req h
    rcases h with h | ⟨raw, h⟩ <;> simp [authenticate, h]

theorem authenticate_suspension_and_auth_required_witness :
    authenticate exSt.users 10
        { authorization := some (.bearer (.signed "u2" "t1" "susp@x.y" .shop_admin 1 901))
          method := "GET", path := "/api/v1/products", paramsTenantId := none
          bodyTenantId := none, tenantId := none, user := none, tenant := none } =
      .respond 403 "Account is not active" "ACCOUNT_INACTIVE" ∧
    authenticate exSt.users 10
        { authorization := none, method := "GET", path := "/api/v1/products"
          paramsTenantId := none, bodyTenantId := none, tenantId := none
          user := none, tenant := none } =
      .respond 401 "Authentication required" "AUTH_REQUIRED" :=
  ⟨(authenticate_suspension_and_auth_required).1 exSt.users 10 _ "u2" "t1" "susp@x.y"
     .shop_admin 1 901 exSuspUser (by decide) (by decide) (by decide) (by decide),
   (authenticate_suspension_and_auth_required).2 exSt.users 10 _ (Or.inl (by decide))⟩

/-! ## C3: tenant isolation in requireTenantAccess -/

/-- C3: for a non-super-admin principal, a tenant id requested via the path
parameter or request body that differs from the principal's own tenantId is
rejected with TENANT_FORBIDDEN; with no foreign tenant requested the
principal's own tenant must exist (TENANT_NOT_FOUND) and be active
(TENANT_INACTIVE) for the request to proceed; a super_admin always passes. -/
theorem tenant_isolation_requireTenantAccess :
    (∀ (tenants : List Tenant) (req : Request) (p : Principal) (t : String),
      req.user = some p →
      p.role ≠ .super_admin →
      (req.paramsTenantId = some t ∨
        (req.paramsTenantId = none ∧ req.bodyTenantId = some t)) →
      t ≠ p.tenantId →
      requireTenantAccess tenants req =
        .respond 403 "Access denied to this tenant" "TENANT_FORBIDDEN") ∧
    (∀ (tenants : List Tenant) (req : Request) (p : Principal),
      req.user = some p →
      p.role ≠ .super_admin →
      (resolveRequestedTenant req = none ∨
        resolveRequestedTenant req = some p.tenantId) →
      (findTenant tenants p.tenantId = none →
        requireTenantAccess tenants req =
          .respond 404 "Tenant not found" "TENANT_NOT_FOUND") ∧
      (∀ tn, findTenant tenants p.tenantId = some tn → tn.status ≠ .active →
        requireTenantAccess tenants req =
          .respond 403 "Tenant account is not active" "TENANT_INACTIVE") ∧
      (∀ tn, findTenant tenants p.tenantId = some tn → tn.status = .active →
        requireTenantAccess tenants req = .next { req with tenant := some tn })) ∧
    (∀ (tenants : List Tenant) (req : Request) (p : Principal),
      req.user = some p →
      p.role = .super_admin →
      requireTenantAccess tenants req = .next req) := by
  refine ⟨?_, ?_, ?_⟩
  · intro tenants req p t hu hrole hreq hne
    have hres : resolveRequestedTenant req = some t := by
      rcases hreq with h | ⟨h1, h2⟩
      · simp [resolveRequestedTenant, Option.orElse, h]
      · simp [resolveRequestedTenant, Option.orElse, h1, h2]
    simp [requireTenantAccess, hu, hrole, hres, hne]
  · intro tenants req p hu hrole hres
    have hown : requireTenantAccess tenants req = ownTenantCheck tenants req p := by
      rcases hres with h | h <;> simp [requireTenantAccess, hu, hrole, h]
    refine ⟨?_, ?_, ?_⟩
    · intro hfind; rw [hown]; simp [ownTenantCheck, hfind]
    · intro tn hfind hst; rw [hown]; simp [ownTenantCheck, hfind, hst]
    · intro tn hfind hst; rw [hown]; simp [ownTenantCheck, hfind, hst]
  · intro tenants req p hu hrole
    simp [requireTenantAccess, hu, hrole]

/-- A staff principal of tenant t1 with every permission flag granted. -/
def exStaffPrincipalAllPerms : Principal :=
  { userId := "u3", tenantId := "t1", email := "staff@x.y", role := .staff
    status := .active
    permissions := some { canManageProducts := true, canManageSales := true
                          canManageStaff := true, canViewReports := true
                          canApplyDiscount := true, canRefund := true } }

/-- A staff principal of tenant t1 with no permissions object attached (the
shape `authenticate` produces). -/
def exStaffPrincipalNoPerms : Principal :=
  { userId := "u3", tenantId := "t1", email := "staff@x.y", role := .staff
    status := .active, permissions := none }

def exSuperPrincipal : Principal :=
  { userId := "u0", tenantId := "global", email := "root@x.y", role := .super_admin
    status := .active, permissions := none }

def mkReq (method path : String) (pt bt : Option String) (p : Option Principal) : Request :=
  { authorization := none, method := method, path := path, paramsTenantId := pt
    bodyTenantId := bt, tenantId := some "t1", user := p, tenant := none }

theorem tenant_isolation_requireTenantAccess_witness :
    requireTenantAccess [exTenant] (mkReq "GET" "/api/v1/tenants/t9" (some "t9") none
        (some exStaffPrincipalNoPerms)) =
      .respond 403 "Access denied to this tenant" "TENANT_FORBIDDEN" ∧
    requireTenantAccess [exTenant] (mkReq "GET" "/api/v1/products" none none
        (some exStaffPrincipalNoPerms)) =
      .next { mkReq "GET" "/api/v1/products" none none (some exStaffPrincipalNoPerms) with
              tenant := some exTenant } ∧
    requireTenantAccess [] (mkReq "GET" "/x" (some "t9") none (some exSuperPrincipal)) =
      .next (mkReq "GET" "/x" (some "t9") none (some exSuperPrincipal)) :=
  ⟨(tenant_isolation_requireTenantAccess).1 [exTenant] _ exStaffPrincipalNoPerms "t9"
     (by decide) (by decide) (Or.inl (by decide)) (by decide),
   ((tenant_isolation_requireTenantAccess).2.1 [exTenant] _ exStaffPrincipalNoPerms
     (by decide) (by decide) (Or.inr (by decide))).2.2 exTenant (by decide) (by decide),
   (tenant_isolation_requireTenantAccess).2.2 [] _ exSuperPrincipal (by decide) (by decide)⟩

/-! ## C4: staff permission checks -/

/-- C4 counterexample: a staff principal whose staff profile grants every
flag, canManageProducts included, is still rejected by the
`canManageProducts` check with NO_PRODUCT_PERMISSION &mdash; so the claim
that each named check passes exactly when its flag is true is false. -/
theorem staff_permission_flags_counterexample :
    permFlag exStaffPrincipalAllPerms (fun x => x.canManageProducts) = true ∧
    canManageProducts (mkReq "PUT" "/api/v1/products/p1" none none
        (some exStaffPrincipalAllPerms)) =
      .respond 403 "Permission denied: Cannot manage products" "NO_PRODUCT_PERMISSION" := by
  constructor
  · rfl
  · rfl

/-- C4 amended: only canViewReports, canApplyDiscount and canRefund are
flag-driven for staff (pass exactly when the flag is attached and true,
absence denying); canManageProducts and canManageStaff deny the staff role
outright regardless of flags; canManageSales ignores the flags too, letting
staff through only for POST on a path containing '/sales' or for GET. In
particular a staff principal without canRefund=true fails with
NO_REFUND_PERMISSION, and a staff principal issuing GET on the sales listing
passes canManageSales. -/
theorem staff_permission_flags_amended :
    (∀ (req : Request) (p : Principal), req.user = some p → p.role = .staff →
      canViewReports req =
        (if permFlag p (fun x => x.canViewReports) then .next req
         else .respond 403 "Permission denied: Cannot view reports" "NO_REPORT_PERMISSION") ∧
      canApplyDiscount req =
        (if permFlag p (fun x => x.canApplyDiscount) then .next req
         else .respond 403 "Permission denied: Cannot apply discounts" "NO_DISCOUNT_PERMISSION") ∧
      canRefund req =
        (if permFlag p (fun x => x.canRefund) then .next req
         else .respond 403 "Permission denied: Cannot process refunds" "NO_REFUND_PERMISSION")) ∧
    (∀ (req : Request) (p : Principal), req.user = some p → p.role = .staff →
      canManageProducts req =
        .respond 403 "Permission denied: Cannot manage products" "NO_PRODUCT_PERMISSION" ∧
      canManageStaff req =
        .respond 403 "Permission denied: Cannot manage staff" "NO_STAFF_PERMISSION" ∧
      canManageSales req =
        (if req.method = "POST" ∧ strIncludes req.path "/sales" = true then .next req
         else if req.method = "GET" then .next req
         else .respond 403 "Permission denied: Cannot modify sales" "NO_SALES_PERMISSION")) := by
  constructor
  · intro req p hu hrole
    refine ⟨?_, ?_, ?_⟩ <;>
      · simp only [canViewReports, canApplyDiscount, canRefund, hu, hrole]
        by_cases hf : permFlag p (fun x => x.canViewReports) = true <;>
        by_cases hg : permFlag p (fun x => x.canApplyDiscount) = true <;>
        by_cases hh : permFlag p (fun x => x.canRefund) = true <;>
          simp_all
  · intro req p hu hrole
    refine ⟨by simp [canManageProducts, hu, hrole],
            by simp [canManageStaff, hu, hrole], ?_⟩
    simp only [canManageSales, hu, hrole]
    by_cases hp : req.method = "POST" ∧ strIncludes req.path "/sales" = true
    · simp [hp]
    · by_cases hg : req.method = "GET" <;> simp_all

theorem staff_permission_flags_amended_witness :
    canRefund (mkReq "POST" "/api/v1/sales/s1/refund" none none
        (some exStaffPrincipalNoPerms)) =
      .respond 403 "Permission denied: Cannot process refunds" "NO_REFUND_PERMISSION" ∧
    canManageSales (mkReq "GET" "/api/v1/sales" none none
        (some exStaffPrincipalAllPerms)) =
      .next (mkReq "GET" "/api/v1/sales" none none (some exStaffPrincipalAllPerms)) ∧
    canManageProducts (mkReq "PUT" "/api/v1/products/p1" none none
        (some exStaffPrincipalAllPerms)) =
      .respond 403 "Permission denied: Cannot manage products" "NO_PRODUCT_PERMISSION" := by
  have h1 := (staff_permission_flags_amended).1
    (mkReq "POST" "/api/v1/sales/s1/refund" none none (some exStaffPrincipalNoPerms))
    exStaffPrincipalNoPerms (by decide) (by decide)
  have h2 := (staff_permission_flags_amended).2
    (mkReq "GET" "/api/v1/sales" none none (some exStaffPrincipalAllPerms))
    exStaffPrincipalAllPerms (by decide) (by decide)
  have h3 := (staff_permission_flags_amended).2
    (mkReq "PUT" "/api/v1/products/p1" none none (some exStaffPrincipalAllPerms))
    exStaffPrincipalAllPerms (by decide) (by decide)
  refine ⟨?_, ?_, ?_⟩
  · rw [h1.2.2]; decide
  · rw [h2.2.2]; decide
  · exact h3.1

/-! ## C7: audit coverage of login attempts -/

/-- C7 counterexample: a login for a suspended account with the correct
password is a failed login attempt (ACCOUNT_INACTIVE), yet the audit store is
left unchanged &mdash; no LOGIN_FAILED entry is written &mdash; refuting the
claim that every failed login attempt writes one LOGIN_FAILED entry. -/
theorem login_audit_counterexample :
    login exSt 5 "susp@x.y" "pw2" none = (exSt, .error accountInactiveErr) ∧
    (login exSt 5 "susp@x.y" "pw2" none).1.audit = exSt.audit := by
  constructor
  · decide
  · decide

/-- C7 amended: a successful login writes exactly one LOGIN entry with status
success, and a wrong-password attempt writes exactly one LOGIN_FAILED entry
with status failure; but an unknown-email attempt persists nothing (the
submitted LOGIN_FAILED document carries userRole 'unknown', which the audit
schema's userRole enum rejects, so the best-effort save drops it), and
attempts failing with ACCOUNT_INACTIVE or TENANT_INACTIVE write no audit
entry at all. -/
theorem login_audit_amended :
    (∀ (st : AuthState) (now : Nat) (email password : String) (targ : Option String)
        (user : User),
      findUserByEmail st.users email = some user →
      user.status = .active →
      comparePassword user password = true →
      (user.role = .super_admin ∨ tenantOk st.tenants user.tenantId = true) →
      (login st now email password targ).1.audit = st.audit ++ [loginSuccessEntry user] ∧
      ∃ ok, (login st now email password targ).2 = .ok ok) ∧
    (∀ (st : AuthState) (now : Nat) (email password : String) (targ : Option String)
        (user : User),
      findUserByEmail st.users email = some user →
      user.status = .active →
      comparePassword user password = false →
      (login st now email password targ).1.audit =
          st.audit ++ [loginFailedPasswordEntry user] ∧
      (login st now email password targ).2 = .error invalidCredentials) ∧
    (∀ (st : AuthState) (now : Nat) (email password : String) (targ : Option String),
      findUserByEmail st.users email = none →
      (login st now email password targ).1.audit = st.audit ∧
      (login st now email password targ).2 = .error invalidCredentials) ∧
    (∀ (st : AuthState) (now : Nat) (email password : String) (targ : Option String)
        (user : User),
      findUserByEmail st.users email = some user →
      user.status ≠ .active →
      login st now email password targ = (st, .error accountInactiveErr)) ∧
    (∀ (st : AuthState) (now : Nat) (email password : String) (targ : Option String)
        (user : User),
      findUserByEmail st.users email = some user →
      user.status = .active →
      comparePassword user password = true →
      user.role ≠ .super_admin →
      tenantOk st.tenants user.tenantId = false →
      login st now email password targ = (st, .error tenantInactiveErr)) := by
  refine ⟨?_, ?_, ?_, ?_, ?_⟩
  · intro st now email pw targ user hfind hact hpw hd
    have hcond : ¬ (user.role ≠ .super_admin ∧ tenantOk st.tenants user.tenantId = false) := by
      rcases hd with h | h
      · exact fun hc => hc.1 h
      · exact fun hc => by rw [h] at hc; exact absurd hc.2 (by simp)
    constructor
    · simp [login, hfind, hact, hpw, hcond,
        auditLog_valid st.audit (auditValidate_loginSuccessEntry user)]
    · refine ⟨{ userId := user.userId, tenantId := user.tenantId, email := user.email
                role := user.role, tokens := generateTokenPair user now }, ?_⟩
      simp [login, hfind, hact, hpw, hcond]
  · intro st now email pw targ user hfind hact hpw
    constructor
    · simp [login, hfind, hact, hpw,
        auditLog_valid st.audit (auditValidate_loginFailedPasswordEntry user)]
    · simp [login, hfind, hact, hpw]
  · intro st now email pw targ hfind
    constructor
    · simp [login, hfind,
        auditLog_invalid st.audit (auditValidate_loginFailedUnknownEntry email targ)]
    · simp [login, hfind]
  · intro st now email pw targ user hfind hst
    simp [login, hfind, hst]
  · intro st now email pw targ user hfind hact hpw hrole hten
    simp [login, hfind, hact, hpw, hrole, hten]

theorem login_audit_amended_witness :
    ((login exSt 1 "alice@x.y" "pw" none).1.audit =
        exSt.audit ++ [loginSuccessEntry exUser] ∧
      ∃ ok, (login exSt 1 "alice@x.y" "pw" none).2 = .ok ok) ∧
    (login exSt 1 "alice@x.y" "wrong" none).1.audit =
        exSt.audit ++ [loginFailedPasswordEntry exUser] ∧
    (login exSt 1 "ghost@x.y" "pw" none).1.audit = exSt.audit ∧
    login exSt 1 "susp@x.y" "pw2" none = (exSt, .error accountInactiveErr) ∧
    login exSt 1 "pend@x.y" "pw4" none = (exSt, .error tenantInactiveErr) :=
  ⟨(login_audit_amended).1 exSt 1 "alice@x.y" "pw" none exUser
     (by decide) (by decide) (by decide) (Or.inr (by decide)),
   ((login_audit_amended).2.1 exSt 1 "alice@x.y" "wrong" none exUser
     (by decide) (by decide) (by decide)).1,
   ((login_audit_amended).2.2.1 exSt 1 "ghost@x.y" "pw" none (by decide)).1,
   (login_audit_amended).2.2.2.1 exSt 1 "susp@x.y" "pw2" none exSuspUser
     (by decide) (by decide),
   (login_audit_amended).2.2.2.2 exSt 1 "pend@x.y" "pw4" none exPendingAdmin
     (by decide) (by decide) (by decide) (by decide) (by decide)⟩

/-! ## C9: tenant creation -/

theorem auditValidate_tenantCreateEntry (cid : String) (c : User) :
    auditValidate (tenantCreateEntry cid c) = true := rfl

theorem auditValidate_shopAdminCreateEntry (tn nm : String) (now : Nat) :
    auditValidate (shopAdminCreateEntry tn nm now) = true := rfl

/-- C9: a non-super-admin caller is rejected with FORBIDDEN before anything is
created; a super_admin caller (absent key collisions) gets an active tenant
together with exactly one shop_admin user scoped to it and two success audit
entries, TENANT_CREATE then USER_CREATE; and when the shop-admin save step
fails the operation is reported as failed (an error, never a success). -/
theorem tenant_creation_guarded_and_audited :
    (∀ (st : AuthState) (now : Nat) (cid tn em pw nm pl : String),
      (findUserById st.users cid = none ∨
        ∃ c, findUserById st.users cid = some c ∧ c.role ≠ .super_admin) →
      createTenantAndShopAdmin st now cid tn em pw nm pl =
        (st, .error createTenantForbiddenErr)) ∧
    (∀ (st : AuthState) (now : Nat) (cid tn em pw nm pl : String) (creator : User),
      findUserById st.users cid = some creator →
      creator.role = .super_admin →
      st.tenants.any (fun t => decide (t.tenantId = (mkTenant tn pl now).tenantId)) = false →
      st.users.any (fun u => decide (u.userId = (mkShopAdmin tn em pw nm now).userId)) = false →
      st.users.any (fun u => decide (u.email = (mkShopAdmin tn em pw nm now).email ∧
        u.tenantId = (mkShopAdmin tn em pw nm now).tenantId)) = false →
      createTenantAndShopAdmin st now cid tn em pw nm pl =
        ({ users := st.users ++ [mkShopAdmin tn em pw nm now]
           tenants := st.tenants ++ [mkTenant tn pl now]
           audit := st.audit ++ [tenantCreateEntry cid creator,
                                 shopAdminCreateEntry tn nm now] },
         .ok { tenantId := (mkTenant tn pl now).tenantId, tenantName := tn
               tenantStatus := .active, plan := pl
               adminUserId := (mkShopAdmin tn em pw nm now).userId
               adminEmail := (mkShopAdmin tn em pw nm now).email
               adminRole := .shop_admin }) ∧
      (mkTenant tn pl now).status = .active ∧
      (mkShopAdmin tn em pw nm now).role = .shop_admin ∧
      (mkShopAdmin tn em pw nm now).tenantId = (mkTenant tn pl now).tenantId ∧
      (tenantCreateEntry cid creator).action = "TENANT_CREATE" ∧
      (tenantCreateEntry cid creator).status = "success" ∧
      (shopAdminCreateEntry tn nm now).action = "USER_CREATE" ∧
      (shopAdminCreateEntry tn nm now).status = "success") ∧
    (∀ (st : AuthState) (now : Nat) (cid tn em pw nm pl : String) (creator : User),
      findUserById st.users cid = some creator →
      creator.role = .super_admin →
      st.tenants.any (fun t => decide (t.tenantId = (mkTenant tn pl now).tenantId)) = false →
      st.users.any (fun u => decide (u.userId = (mkShopAdmin tn em pw nm now).userId)) = false →
      st.users.any (fun u => decide (u.email = (mkShopAdmin tn em pw nm now).email ∧
        u.tenantId = (mkShopAdmin tn em pw nm now).tenantId)) = true →
      ∃ e, createTenantAndShopAdmin st now cid tn em pw nm pl =
        ({ st with tenants := st.tenants ++ [mkTenant tn pl now] }, .error e)) := by
  refine ⟨?_, ?_, ?_⟩
  · intro st now cid tn em pw nm pl h
    rcases h with h | ⟨c, hc, hr⟩
    · simp [createTenantAndShopAdmin, h]
    · simp [createTenantAndShopAdmin, hc, hr]
  · intro st now cid tn em pw nm pl creator hfind hrole h1 h2 h3
    have h3' : ¬ ∃ x ∈ st.users,
        x.email = (mkShopAdmin tn em pw nm now).email ∧
        x.tenantId = (mkShopAdmin tn em pw nm now).tenantId := by
      simpa using h3
    refine ⟨?_, rfl, rfl, rfl, rfl, rfl, rfl, rfl⟩
    simp only [createTenantAndShopAdmin, hfind, hrole]
    simp [h1, h2, h3',
      auditLog_valid _ (auditValidate_tenantCreateEntry cid creator),
      auditLog_valid _ (auditValidate_shopAdminCreateEntry tn nm now)]
    exact ⟨rfl, rfl, rfl, rfl⟩
  · intro st now cid tn em pw nm pl creator hfind hrole h1 h2 h3
    have h3' : ∃ x ∈ st.users,
        x.email = (mkShopAdmin tn em pw nm now).email ∧
        x.tenantId = (mkShopAdmin tn em pw nm now).tenantId := by
      simpa using h3
    refine ⟨duplicateKeyErr "email", ?_⟩
    simp only [createTenantAndShopAdmin, hfind, hrole]
    simp [h1, h2, h3']

/-- A user whose (email, tenantId) pair collides with the shop admin that
creating tenant "Acme" at clock 99 would insert. -/
def exClashUser : User :=
  { userId := "u8", tenantId := "tenant_ACM_99", email := "owner@acme.t"
    passwordHash := bcryptHash "z", role := .shop_admin, status := .active
    firstName := none, lastName := none, refreshTokens := [], lastLogin := none }

def exStClash : AuthState := { exSt with users := exSt.users ++ [exClashUser] }

theorem tenant_creation_guarded_and_audited_witness :
    createTenantAndShopAdmin exSt 99 "u0" "Acme" "Owner@Acme.T" "secret" "Owner" "free" =
      ({ users := exSt.users ++ [mkShopAdmin "Acme" "Owner@Acme.T" "secret" "Owner" 99]
         tenants := exSt.tenants ++ [mkTenant "Acme" "free" 99]
         audit := exSt.audit ++ [tenantCreateEntry "u0" exSuper,
                                 shopAdminCreateEntry "Acme" "Owner" 99] },
       .ok { tenantId := (mkTenant "Acme" "free" 99).tenantId, tenantName := "Acme"
             tenantStatus := .active, plan := "free"
             adminUserId := (mkShopAdmin "Acme" "Owner@Acme.T" "secret" "Owner" 99).userId
             adminEmail := (mkShopAdmin "Acme" "Owner@Acme.T" "secret" "Owner" 99).email
             adminRole := .shop_admin }) ∧
    createTenantAndShopAdmin exSt 99 "u1" "Acme" "o@a.t" "s" "O" "free" =
      (exSt, .error createTenantForbiddenErr) ∧
    ∃ e, createTenantAndShopAdmin exStClash 99 "u0" "Acme" "Owner@Acme.T" "secret" "Owner" "free" =
      ({ exStClash with tenants := exStClash.tenants ++ [mkTenant "Acme" "free" 99] },
       .error e) :=
  ⟨((tenant_creation_guarded_and_audited).2.1 exSt 99 "u0" "Acme" "Owner@Acme.T" "secret"
      "Owner" "free" exSuper (by decide) (by decide) (by decide) (by decide) (by decide)).1,
   (tenant_creation_guarded_and_audited).1 exSt 99 "u1" "Acme" "o@a.t" "s" "O" "free"
     (Or.inr ⟨exUser, by decide, by decide⟩),
   (tenant_creation_guarded_and_audited).2.2 exStClash 99 "u0" "Acme" "Owner@Acme.T"
     "secret" "Owner" "free" exSuper (by decide) (by decide) (by decide) (by decide)
     (by decide)⟩

/-! ## C1: refresh-token rotation is single-use -/

/-- Inverting a successful rotation: it forces a well-signed unexpired token,
a user hit, a presence check that passed, and a `rotateFinish` outcome. -/
theorem refreshTokenOp_ok_elim {st : AuthState} {t : Nat} {rt : RefreshTok}
    {st' : AuthState} {tp : TokenPair}
    (h : refreshTokenOp st t (some rt) = (st', .ok tp)) :
    ∃ uid iat tokexp user, rt = .signed uid iat tokexp ∧ t < tokexp ∧
      findUserById st.users uid = some user ∧
      user.refreshTokens.any (fun r => decide (r.token = rt)) = true ∧
      rotateFinish st t user rt = (st', .ok tp) := by
  cases rt with
  | forged raw => simp [refreshTokenOp, verifyRefreshToken] at h
  | signed uid iat tokexp =>
      by_cases hexp : tokexp ≤ t
      · simp [refreshTokenOp, verifyRefreshToken, hexp] at h
      · cases hfind : findUserById st.users uid with
        | none => simp [refreshTokenOp, verifyRefreshToken, hexp, hfind] at h
        | some user =>
            by_cases hany : user.refreshTokens.any
                (fun r => decide (r.token = RefreshTok.signed uid iat tokexp)) = true
            · refine ⟨uid, iat, tokexp, user, rfl, by omega, hfind, hany, ?_⟩
              cases hfd : user.refreshTokens.find?
                  (fun r => decide (r.token = RefreshTok.signed uid iat tokexp)) with
              | none =>
                  simpa [refreshTokenOp, verifyRefreshToken, hexp, hfind, hany, hfd] using h
              | some td =>
                  by_cases hlt : td.expiresAt < t
                  · simp [refreshTokenOp, verifyRefreshToken, hexp, hfind, hany, hfd, hlt] at h
                  · simpa [refreshTokenOp, verifyRefreshToken, hexp, hfind, hany, hfd, hlt]
                      using h
            · simp only [Bool.not_eq_true] at hany
              simp [refreshTokenOp, verifyRefreshToken, hexp, hfind, hany] at h

/-- C1: once a rotation of a well-signed refresh token has succeeded at a
clock instant other than the token's issuance second (so that the consumed
record really leaves the store), any later rotation of the same token while
its embedded expiry is still valid fails with TOKEN_INVALID and appends a
persisted TOKEN_REVOKED audit entry: the token, though cryptographically
valid, is absent from the user's stored list and treated as revoked. -/
theorem refresh_rotation_single_use
    (st st₁ : AuthState) (t₁ t₂ : Nat) (uid : String) (iat tokexp : Nat)
    (tp : TokenPair)
    (hfresh : iat ≠ t₁)
    (hvalid₂ : t₂ < tokexp)
    (hsucc : refreshTokenOp st t₁ (some (.signed uid iat tokexp)) = (st₁, .ok tp)) :
    ∃ u₁ : User,
      findUserById st₁.users uid = some u₁ ∧
      refreshTokenOp st₁ t₂ (some (.signed uid iat tokexp)) =
        ({ st₁ with audit := st₁.audit ++ [tokenRevokedEntry u₁] },
         .error tokenInvalidErr) := by
  obtain ⟨uid', iat', tokexp', user, heq, hlt, hfind, hany, hrot⟩ :=
    refreshTokenOp_ok_elim hsucc
  obtain ⟨h1, h2, h3⟩ := RefreshTok.signed.inj heq
  subst h1; subst h2; subst h3
  have hst1 : st₁ = { users := saveUser st.users (rotatedUser user t₁ (.signed uid iat tokexp))
                      tenants := st.tenants
                      audit := auditLog st.audit (tokenRefreshEntry user) } := by
    have hfst := congrArg Prod.fst hrot
    simpa [rotateFinish] using hfst.symm
  have hfind₁ : findUserById st₁.users uid =
      some (rotatedUser user t₁ (.signed uid iat tokexp)) := by
    rw [hst1]
    exact findUserById_saveUser st.users uid user _ hfind rfl
  have hany₁ : ((rotatedUser user t₁ (.signed uid iat tokexp)).refreshTokens.any
      (fun r => decide (r.token = RefreshTok.signed uid iat tokexp))) = false := by
    simp only [rotatedUser, List.any_append]
    rw [any_filter_not_eq_false]
    have hnewtok : ¬ ((newRefreshRecord user t₁).token = RefreshTok.signed uid iat tokexp) := by
      intro hcontra
      have : t₁ = iat := by
        have := (RefreshTok.signed.inj hcontra).2.1
        exact this
      exact hfresh this.symm
    simp [newRefreshRecord, generateTokenPair] at hnewtok ⊢
    exact hnewtok
  refine ⟨rotatedUser user t₁ (.signed uid iat tokexp), hfind₁, ?_⟩
  have hnle : ¬ tokexp ≤ t₂ := by omega
  simp [refreshTokenOp, verifyRefreshToken, hnle, hfind₁, hany₁,
    auditLog_valid _ (auditValidate_tokenRevokedEntry _)]

/-- A refresh token issued to exUser at clock 10. -/
def exRt : RefreshTok := .signed "u1" 10 604810

def exUserTok : User :=
  { exUser with refreshTokens := [{ token := exRt, createdAt := 10, expiresAt := 604810 }] }

def exStTok : AuthState := { users := [exUserTok], tenants := [exTenant], audit := [] }

/-- The state after exRt was successfully rotated at clock 20. -/
def exStRot : AuthState := (refreshTokenOp exStTok 20 (some exRt)).1

theorem refresh_rotation_single_use_witness :
    ∃ u₁ : User,
      findUserById exStRot.users "u1" = some u₁ ∧
      refreshTokenOp exStRot 30 (some (.signed "u1" 10 604810)) =
        ({ exStRot with audit := exStRot.audit ++ [tokenRevokedEntry u₁] },
         .error tokenInvalidErr) :=
  refresh_rotation_single_use exStTok exStRot 20 30 "u1" 10 604810
    (generateTokenPair exUserTok 20) (by decide) (by decide) (by decide)

/-! ## C2: the session registry cap -/

/-- Every user in the store holds at most 5 refresh-token records. -/
def capOK (st : AuthState) : Prop := ∀ u ∈ st.users, u.refreshTokens.length ≤ 5

theorem capOK_rotateFinish (st : AuthState) (now : Nat) (user : User) (rt : RefreshTok)
    (hcap : capOK st) (hmem : user ∈ st.users)
    (hany : user.refreshTokens.any (fun r => decide (r.token = rt)) = true) :
    capOK (rotateFinish st now user rt).1 := by
  intro u hu
  rcases mem_saveUser hu with rfl | hm
  · show ((user.refreshTokens.filter
        (fun x => !((fun r => decide (r.token = rt)) x)))
        ++ [newRefreshRecord user now]).length ≤ 5
    have hlt := length_filter_not_lt user.refreshTokens
      (fun r => decide (r.token = rt)) hany
    have h5 := hcap user hmem
    rw [List.length_append]
    have hone : ([newRefreshRecord user now] : List RefreshTokenRecord).length = 1 := rfl
    omega
  · exact hcap u hm

/-- Sequential logins, threading the state. -/
def loginChain (st : AuthState) (times : List Nat) (email password : String) : AuthState :=
  times.foldl (fun s t => (login s t email password none).1) st

/-- The state after six sequential successful logins of exUser at clocks 1..6. -/
def sixSt : AuthState := loginChain exSt [1, 2, 3, 4, 5, 6] "alice@x.y" "pw"

/-- The refresh token issued by the first of those six logins. -/
def firstTok : RefreshTok := .signed "u1" 1 (1 + refreshExpirySecs)

/-- C2: the per-user refresh-token list never exceeds 5 records: login leaves
every stored list at 5 or fewer (evicting oldest-first via slice(-5)),
rotation removes the consumed record before appending its replacement, and
tenant creation adds only a token-less user. Concretely, after six sequential
successful logins exactly 5 records remain, the token issued by the first
login is no longer stored, and rotating it fails with TOKEN_INVALID. -/
theorem session_registry_cap :
    (∀ (st : AuthState) (now : Nat) (email password : String) (targ : Option String),
      capOK st → capOK (login st now email password targ).1) ∧
    (∀ (st : AuthState) (now : Nat) (rto : Option RefreshTok),
      capOK st → capOK (refreshTokenOp st now rto).1) ∧
    (∀ (st : AuthState) (now : Nat) (cid tn em pw nm pl : String),
      capOK st → capOK (createTenantAndShopAdmin st now cid tn em pw nm pl).1) ∧
    ((findUserById sixSt.users "u1").map (fun u => u.refreshTokens.length) = some 5 ∧
      (findUserById sixSt.users "u1").map
        (fun u => u.refreshTokens.any (fun r => decide (r.token = firstTok))) = some false ∧
      (refreshTokenOp sixSt 7 (some firstTok)).2 = .error tokenInvalidErr) := by
  refine ⟨?_, ?_, ?_, by decide, by decide, by decide⟩
  · intro st now email pw targ hcap
    cases hfind : findUserByEmail st.users email with
    | none =>
        simp only [login, hfind]
        exact fun u hu => hcap u hu
    | some user =>
        simp only [login, hfind]
        by_cases h1 : user.status ≠ .active
        · rw [if_pos h1]; exact fun u hu => hcap u hu
        · rw [if_neg h1]
          by_cases h2 : comparePassword user pw = false
          · rw [if_pos h2]; exact fun u hu => hcap u hu
          · rw [if_neg h2]
            by_cases h3 : user.role ≠ .super_admin ∧ tenantOk st.tenants user.tenantId = false
            · rw [if_pos h3]; exact fun u hu => hcap u hu
            · rw [if_neg h3]
              intro u hu
              rcases mem_saveUser hu with rfl | hm
              · show (if (user.refreshTokens ++ [newRefreshRecord user now]).length > 5
                      then takeLast5 (user.refreshTokens ++ [newRefreshRecord user now])
                      else user.refreshTokens ++ [newRefreshRecord user now]).length ≤ 5
                by_cases hlen :
                    (user.refreshTokens ++ [newRefreshRecord user now]).length > 5
                · rw [if_pos hlen]; exact takeLast5_length_le _
                · rw [if_neg hlen]; omega
              · exact hcap u hm
  · intro st now rto hcap
    cases rto with
    | none => exact fun u hu => hcap u hu
    | some rt =>
        cases hv : verifyRefreshToken now rt with
        | error e =>
            cases e <;> (simp only [refreshTokenOp, hv]; exact fun u hu => hcap u hu)
        | ok claims =>
            cases hfind : findUserById st.users claims.userId with
            | none =>
                simp only [refreshTokenOp, hv, hfind]
                exact fun u hu => hcap u hu
            | some user =>
                simp only [refreshTokenOp, hv, hfind]
                by_cases hany :
                    user.refreshTokens.any (fun r => decide (r.token = rt)) = true
                · rw [if_pos hany]
                  have hcapR := capOK_rotateFinish st now user rt hcap
                    (List.mem_of_find?_eq_some hfind) hany
                  cases hfd : user.refreshTokens.find?
                      (fun r => decide (r.token = rt)) with
                  | none => exact hcapR
                  | some td =>
                      show capOK ((if td.expiresAt < now
                        then (st, Except.error refreshExpiredErr)
                        else rotateFinish st now user rt)).1
                      by_cases hlt : td.expiresAt < now
                      · rw [if_pos hlt]; exact fun u hu => hcap u hu
                      · rw [if_neg hlt]; exact hcapR
                · rw [if_neg hany]
                  exact fun u hu => hcap u hu
  · intro st now cid tn em pw nm pl hcap
    cases hfind : findUserById st.users cid with
    | none =>
        simp only [createTenantAndShopAdmin, hfind]
        exact fun u hu => hcap u hu
    | some c =>
        simp only [createTenantAndShopAdmin, hfind]
        by_cases hr : c.role ≠ .super_admin
        · rw [if_pos hr]; exact fun u hu => hcap u hu
        · rw [if_neg hr]
          by_cases ht : st.tenants.any
              (fun t => decide (t.tenantId = (mkTenant tn pl now).tenantId)) = true
          · rw [if_pos ht]; exact fun u hu => hcap u hu
          · rw [if_neg ht]
            by_cases hui : st.users.any
                (fun u => decide (u.userId = (mkShopAdmin tn em pw nm now).userId)) = true
            · rw [if_pos hui]; exact fun u hu => hcap u hu
            · rw [if_neg hui]
              by_cases hue : st.users.any
                  (fun u => decide (u.email = (mkShopAdmin tn em pw nm now).email ∧
                    u.tenantId = (mkShopAdmin tn em pw nm now).tenantId)) = true
              · rw [if_pos hue]; exact fun u hu => hcap u hu
              · rw [if_neg hue]
                intro u hu
                rcases List.mem_append.mp hu with hm | hm
                · exact hcap u hm
                · have hu' : u = mkShopAdmin tn em pw nm now := by simpa using hm
                  rw [hu']
                  simp [mkShopAdmin]

theorem session_registry_cap_witness :
    capOK (login exSt 1 "alice@x.y" "pw" none).1 ∧
    capOK (refreshTokenOp exStRot 30 (some exRt)).1 ∧
    capOK (createTenantAndShopAdmin exSt 99 "u0" "Acme" "o@a.t" "s" "O" "free").1 :=
  ⟨(session_registry_cap).1 exSt 1 "alice@x.y" "pw" none (by unfold capOK; decide),
   (session_registry_cap).2.1 exStRot 30 (some exRt) (by unfold capOK; decide),
   (session_registry_cap).2.2.1 exSt 99 "u0" "Acme" "o@a.t" "s" "O" "free"
     (by unfold capOK; decide)⟩

end DMPos
